import Mathlib

/-!
Verification of the YolovFeed client-side stream engine.

The definitions below are shallow embeddings of the frontend source:
the per-camera state store reducer from
src/frontend/src/contexts/SocketContext.tsx (handleSocketMessage and the
start/stop/toggle command handlers), the coordinate mapper and overlay
logic from src/frontend/src/components/InteractiveCameraStream.tsx, and
the audio manager from src/frontend/src/services/AudioManager.ts.

JavaScript objects used as string-keyed maps are modelled as association
lists with a head-shadowing update; optional or possibly-undefined fields
are modelled as Option; JS string falsiness (undefined, null or the empty
string) is modelled through Option plus an explicit emptiness test; JS
numbers appearing in geometry and volume computations are modelled as
rationals.
-/

namespace YolovFeed

/-- The JS toLowerCase method, mapping basic-latin upper case to lower
case character by character. -/
def jsToLowerCase (s : String) : String :=
  String.mk (s.data.map Char.toLower)

/-- Truthiness of an optional JS string: undefined, null and "" are falsy. -/
def truthyStr : Option String → Bool
  | none => false
  | some s => !(s == "")

/-- Reading property k of a JS object modelled as an association list. -/
def alookup {α : Type} (l : List (String × α)) (k : String) : Option α :=
  (l.find? (fun p => p.1 == k)).map (fun p => p.2)

/-- Updating property k of a JS object, as in a spread-update expression. -/
def aset {α : Type} (l : List (String × α)) (k : String) (v : α) :
    List (String × α) :=
  (k, v) :: l.filter (fun p => !(p.1 == k))

/-- Removing property k of a JS object, as in a delete statement. -/
def adel {α : Type} (l : List (String × α)) (k : String) : List (String × α) :=
  l.filter (fun p => !(p.1 == k))

/-! ## Data model (src/frontend/src/types and SocketContext.tsx) -/

/-- Bounding box of a detection in source-image pixel space. -/
structure BBox where
  x1 : Rat
  y1 : Rat
  x2 : Rat
  y2 : Rat
  width : Rat
  height : Rat
deriving DecidableEq, Repr

/-- One detected object; every field may be absent in a raw message. -/
structure Detection where
  class_name : Option String := none
  confidence : Option Rat := none
  bbox : Option BBox := none
deriving DecidableEq, Repr

/-- Mapping from class name to a count, as delivered in detection events. -/
abbrev ObjectCount := List (String × Nat)

/-- A detection message as stored wholesale in detectionResults. -/
structure DetectionMsg where
  camera_id : String
  detections : Option (List Detection) := none
  object_counts : Option ObjectCount := none
  timestamp : Option String := none
deriving DecidableEq, Repr

/-- Per-camera runtime status entry; fields start absent because entries
are built by spread-updates over a possibly-undefined previous entry. -/
structure CameraRuntimeState where
  isStreaming : Option Bool := none
  isDetecting : Option Bool := none
  lastSeen : Option String := none
  error : Option String := none
deriving DecidableEq, Repr

/-- The React state of CameraProvider that the reducer logic mutates. -/
structure StoreState where
  cameraStatuses : List (String × CameraRuntimeState) := []
  detectionResults : List (String × DetectionMsg) := []
  cameraStreams : List (String × String) := []
  objectCounts : List (String × ObjectCount) := []
deriving DecidableEq, Repr

/-- The JS expression timestamp-or-now: a falsy timestamp field is
replaced by the current ISO time string. -/
def tsOrNow (timestamp : Option String) (now : String) : String :=
  match timestamp with
  | some t => if t == "" then now else t
  | none => now

/-! ## handleSocketMessage cases (SocketContext.tsx lines 141-203) -/

/-- Case frame: replace the cached frame and spread-update the status
entry with isStreaming true and a fresh lastSeen. -/
def handleFrame (s : StoreState) (camera_id : String) (frame : String)
    (timestamp : Option String) (now : String) : StoreState :=
  { s with
    cameraStreams := aset s.cameraStreams camera_id frame,
    cameraStatuses := aset s.cameraStatuses camera_id
      { (alookup s.cameraStatuses camera_id).getD {} with
          isStreaming := some true,
          lastSeen := some (tsOrNow timestamp now) } }

/-- Case detection: store the message wholesale, replace objectCounts only
when the message carries a truthy object_counts field, and spread-update
the status entry with isDetecting true and a fresh lastSeen. -/
def handleDetection (s : StoreState) (msg : DetectionMsg) (now : String) :
    StoreState :=
  let s1 := { s with
    detectionResults := aset s.detectionResults msg.camera_id msg }
  let s2 :=
    match msg.object_counts with
    | some oc => { s1 with objectCounts := aset s1.objectCounts msg.camera_id oc }
    | none => s1
  { s2 with
    cameraStatuses := aset s2.cameraStatuses msg.camera_id
      { (alookup s2.cameraStatuses msg.camera_id).getD {} with
          isDetecting := some true,
          lastSeen := some (tsOrNow msg.timestamp now) } }

/-- Case detection_status: spread-update only the status entry, coercing
the announced flag with an or-false guard; nothing else is touched. -/
def handleDetectionStatus (s : StoreState) (camera_id : String)
    (enabled : Bool) : StoreState :=
  { s with
    cameraStatuses := aset s.cameraStatuses camera_id
      { (alookup s.cameraStatuses camera_id).getD {} with
          isDetecting := some (enabled || false) } }

/-! ## REST command handlers (SocketContext.tsx lines 336-396) -/

/-- The stopCamera handler: on API success the status entry is set to not
streaming, not detecting, with the error field cleared, and the cached
frame is deleted; the catch branch only raises a toast and rethrows,
leaving the store untouched. -/
def stopCamera (s : StoreState) (cameraId : String) (apiSucceeds : Bool) :
    StoreState :=
  if apiSucceeds then
    let s1 := { s with
      cameraStatuses := aset s.cameraStatuses cameraId
        { (alookup s.cameraStatuses cameraId).getD {} with
            isStreaming := some false,
            isDetecting := some false,
            error := none } }
    { s1 with cameraStreams := adel s1.cameraStreams cameraId }
  else s

/-- The toggleDetection handler: on API success the status entry gets the
requested isDetecting value and, when disabling, detectionResults and
objectCounts for the camera are deleted; the catch branch only raises a
toast and rethrows, leaving the store untouched. -/
def toggleDetection (s : StoreState) (cameraId : String) (enabled : Bool)
    (apiSucceeds : Bool) : StoreState :=
  if apiSucceeds then
    let s1 := { s with
      cameraStatuses := aset s.cameraStatuses cameraId
        { (alookup s.cameraStatuses cameraId).getD {} with
            isDetecting := some enabled } }
    if enabled then s1
    else
      { s1 with
        detectionResults := adel s1.detectionResults cameraId,
        objectCounts := adel s1.objectCounts cameraId }
  else s

/-! ## Coordinate mapper and overlay (InteractiveCameraStream.tsx) -/

/-- A DOMRect as returned by getBoundingClientRect, restricted to the
fields the component reads. -/
structure Rect where
  left : Rat
  top : Rat
  width : Rat
  height : Rat
deriving DecidableEq, Repr

/-- The screen-space rectangle returned by calculateScreenCoordinates. -/
structure ScreenCoords where
  screenX : Rat
  screenY : Rat
  screenWidth : Rat
  screenHeight : Rat
deriving DecidableEq, Repr

/-- Translation of calculateScreenCoordinates (lines 53-77): null canvas,
null container or missing bbox yield null; otherwise the bbox is scaled
by displayed-size over native-size factors and offset by the canvas
position relative to its container. -/
def calculateScreenCoordinates (detection : Detection)
    (imageWidth imageHeight : Rat) (canvasRect containerRect : Option Rect) :
    Option ScreenCoords :=
  match canvasRect, containerRect, detection.bbox with
  | some cRect, some ctRect, some bbox =>
    let scaleX := cRect.width / imageWidth
    let scaleY := cRect.height / imageHeight
    let screenX := bbox.x1 * scaleX
    let screenY := bbox.y1 * scaleY
    let screenWidth := bbox.width * scaleX
    let screenHeight := bbox.height * scaleY
    some { screenX := screenX + cRect.left - ctRect.left,
           screenY := screenY + cRect.top - ctRect.top,
           screenWidth := screenWidth,
           screenHeight := screenHeight }
  | _, _, _ => none

/-- A clickable region produced by the clickable-detections effect,
carrying its source Detection and that Detection's index in the set. -/
structure ClickableDetection where
  detection : Detection
  sourceIndex : Nat
  coords : ScreenCoords
deriving DecidableEq, Repr

/-- The forEach loop of the clickable-detections effect (lines 89-109),
with the running index made explicit: a detection with a falsy bbox or
class name is skipped, otherwise an item is pushed when screen
coordinates were computed. -/
def clickableItemsFrom (imageWidth imageHeight : Rat)
    (canvasRect containerRect : Option Rect) (i : Nat) :
    List Detection → List ClickableDetection
  | [] => []
  | detection :: rest =>
    let tail := clickableItemsFrom imageWidth imageHeight canvasRect
      containerRect (i + 1) rest
    if detection.bbox.isNone || !(truthyStr detection.class_name) then tail
    else
      match calculateScreenCoordinates detection imageWidth imageHeight
          canvasRect containerRect with
      | some sc =>
        { detection := detection, sourceIndex := i, coords := sc } :: tail
      | none => tail

/-- Clickable regions for a whole DetectionSet, starting at index 0. -/
def computeClickableItems (dets : List Detection)
    (imageWidth imageHeight : Rat) (canvasRect containerRect : Option Rect) :
    List ClickableDetection :=
  clickableItemsFrom imageWidth imageHeight canvasRect containerRect 0 dets

/-- The per-class colour table of drawBoundingBoxes (lines 168-178). -/
def colorsTable : List (String × String) :=
  [("person", "#ff6b6b"), ("car", "#4ecdc4"), ("truck", "#45b7d1"),
   ("bus", "#96ceb4"), ("motorcycle", "#ffeaa7"), ("bicycle", "#fd79a8"),
   ("dog", "#fdcb6e"), ("cat", "#e17055"), ("bird", "#81ecec")]

/-- One box drawn on the canvas by drawBoundingBoxes. -/
structure DrawnBox where
  class_name : String
  bbox : BBox
  color : String
deriving DecidableEq, Repr

/-- Translation of drawBoundingBoxes (lines 160-216) as the list of boxes
it strokes, in draw order: detections with a falsy class name or missing
bbox are skipped; the colour is looked up by lower-cased class name with
a default. -/
def drawBoundingBoxes : List Detection → List DrawnBox
  | [] => []
  | detection :: rest =>
    match detection.class_name, detection.bbox with
    | some cn, some bb =>
      if cn == "" then drawBoundingBoxes rest
      else
        { class_name := cn, bbox := bb,
          color := (alookup colorsTable (jsToLowerCase cn)).getD "#74b9ff" } ::
          drawBoundingBoxes rest
    | _, _ => drawBoundingBoxes rest

/-- Per-class cooldown ledger, modelling the lastSoundTime state map. -/
abbrev SoundLedger := List (String × Nat)

/-- Cooldown between sounds of one object type, in milliseconds. -/
def SOUND_COOLDOWN : Nat := 1000

/-- Result of one call to playDetectionSound: whether audio playback was
invoked, and the updated ledger. -/
structure PlayOutcome where
  played : Bool
  ledger : SoundLedger
deriving DecidableEq, Repr

/-- Translation of playDetectionSound (lines 41-51): nothing happens when
alerts are disabled or the object type is falsy; otherwise playback fires
exactly when more than SOUND_COOLDOWN ms elapsed since the class's last
recorded play (defaulting to 0), in which case the ledger is updated. -/
def playDetectionSound (enableSoundAlerts : Bool) (ledger : SoundLedger)
    (objectType : String) (now : Nat) : PlayOutcome :=
  if !enableSoundAlerts || objectType == "" then
    { played := false, ledger := ledger }
  else
    let lastPlayTime := (alookup ledger objectType).getD 0
    if now - lastPlayTime > SOUND_COOLDOWN then
      { played := true, ledger := aset ledger objectType now }
    else
      { played := false, ledger := ledger }

/-! ## Audio manager (src/frontend/src/services/AudioManager.ts) -/

/-- Mutable fields of the AudioManager singleton that the claims touch.
The audio context and the buffer registry are reduced to whether the
context exists and which cue names are loaded. -/
structure AudioManagerState where
  enabled : Bool := true
  masterVolume : Rat := 7/10
  hasContext : Bool := false
  soundBuffers : List String := []
deriving DecidableEq, Repr

/-- Cue names registered by loadSounds (lines 43-64). -/
def loadedSoundNames : List String :=
  ["person", "car", "dog", "cat", "bird", "bicycle", "motorcycle", "bus",
   "truck", "click", "success", "warning", "error", "multiple_objects",
   "high_confidence"]

/-- Effect of a successful initialize-then-loadSounds run on the fields
modelled here; masterVolume is untouched. -/
def initializeAudio (st : AudioManagerState) : AudioManagerState :=
  { st with hasContext := true, soundBuffers := loadedSoundNames }

/-- Translation of setMasterVolume (lines 196-198). -/
def setMasterVolume (st : AudioManagerState) (volume : Rat) :
    AudioManagerState :=
  { st with masterVolume := max 0 (min 1 volume) }

/-- Translation of getMasterVolume (lines 200-202). -/
def getMasterVolume (st : AudioManagerState) : Rat :=
  st.masterVolume

/-- Translation of setEnabled (lines 188-190). -/
def setEnabled (st : AudioManagerState) (enabled : Bool) :
    AudioManagerState :=
  { st with enabled := enabled }

/-- Translation of playSound (lines 153-186): returns the gain actually
applied to the output node, or none when the call bails out (disabled,
no context, unknown cue); every branch returns, no error escapes. -/
def playSound (st : AudioManagerState) (soundName : String) (volume : Rat) :
    Option Rat :=
  if !st.enabled then none
  else if !st.hasContext then none
  else if !(st.soundBuffers.contains soundName) then none
  else some (min volume 1 * (1/2) * st.masterVolume)

/-- The class-to-cue table of playObjectDetectionSound (lines 218-233). -/
def soundMap : List (String × String) :=
  [("person", "person"), ("car", "car"), ("truck", "truck"), ("bus", "bus"),
   ("motorcycle", "motorcycle"), ("bicycle", "bicycle"), ("dog", "dog"),
   ("cat", "cat"), ("bird", "bird"), ("chair", "click"), ("bottle", "click"),
   ("laptop", "click"), ("cell phone", "click"), ("book", "click")]

/-- Translation of playObjectDetectionSound (lines 205-240) up to the
playSound call: a falsy or non-string object type returns with no
playback; a non-numeric or NaN confidence (modelled as none) defaults to
one half; the cue is looked up by lower-cased name with the click cue as
fallback; the volume tier is derived from confidence. The result is the
cue name and volume handed to playSound, or none when nothing is
played. -/
def playObjectDetectionSound (objectType : Option String)
    (confidence : Option Rat) : Option (String × Rat) :=
  match objectType with
  | none => none
  | some ot =>
    if ot == "" then none
    else
      let conf := confidence.getD (1/2)
      let soundName := (alookup soundMap (jsToLowerCase ot)).getD "click"
      let volume : Rat :=
        if conf > 8/10 then 1 else if conf > 1/2 then 7/10 else 1/2
      some (soundName, volume)

/-- Operations a client can invoke on the AudioManager singleton. -/
inductive AudioOp where
  | setVolume (volume : Rat)
  | setEnabledOp (enabled : Bool)
  | initAudio
  | play (soundName : String) (volume : Rat)
  | playObjectDetection (objectType : Option String) (confidence : Option Rat)
deriving DecidableEq, Repr

/-- State transition of one AudioManager operation; the play operations
never write any field modelled here. -/
def applyAudioOp (st : AudioManagerState) : AudioOp → AudioManagerState
  | .setVolume v => setMasterVolume st v
  | .setEnabledOp b => setEnabled st b
  | .initAudio => initializeAudio st
  | .play _ _ => st
  | .playObjectDetection _ _ => st

/-- Folding a sequence of operations over the freshly constructed
singleton (field defaults of the class body). -/
def runAudioOps (ops : List AudioOp) : AudioManagerState :=
  ops.foldl applyAudioOp {}

/-! ## General lemmas about the association-list operations -/

theorem alookup_aset_self {α : Type} (l : List (String × α)) (k : String)
    (v : α) : alookup (aset l k v) k = some v := by
  unfold alookup aset
  rw [List.find?_cons_of_pos]
  · rfl
  · simp

theorem find_filter_other_key {α : Type} (l : List (String × α))
    (k k' : String) (h : k' ≠ k) :
    List.find? (fun p => p.1 == k') (l.filter (fun p => !(p.1 == k))) =
      List.find? (fun p => p.1 == k') l := by
  induction l with
  | nil => rfl
  | cons hd tl ih =>
    by_cases hk : hd.1 = k
    · have h2 : ¬((fun (p : String × α) => p.1 == k') hd = true) := by
        simp only [beq_iff_eq]
        intro hc; exact h (by rw [← hc, hk])
      have hfil : List.filter (fun p => !(p.1 == k)) (hd :: tl) =
          List.filter (fun p => !(p.1 == k)) tl := by
        simp [List.filter_cons, hk]
      rw [hfil, ih]
      exact (List.find?_cons_of_neg tl h2).symm
    · have hfil : List.filter (fun p => !(p.1 == k)) (hd :: tl) =
          hd :: List.filter (fun p => !(p.1 == k)) tl := by
        simp [List.filter_cons, hk]
      rw [hfil]
      by_cases hk' : hd.1 = k'
      · have hpos : ((fun (p : String × α) => p.1 == k') hd) = true := by
          simp [hk']
        rw [@List.find?_cons_of_pos _ (fun p => p.1 == k') hd
            (List.filter (fun p => !(p.1 == k)) tl) hpos,
          @List.find?_cons_of_pos _ (fun p => p.1 == k') hd tl hpos]
      · have hneg : ¬((fun (p : String × α) => p.1 == k') hd = true) := by
          simp [hk']
        rw [@List.find?_cons_of_neg _ (fun p => p.1 == k') hd
            (List.filter (fun p => !(p.1 == k)) tl) hneg,
          @List.find?_cons_of_neg _ (fun p => p.1 == k') hd tl hneg, ih]

theorem alookup_aset_other {α : Type} (l : List (String × α))
    (k k' : String) (v : α) (h : k' ≠ k) :
    alookup (aset l k v) k' = alookup l k' := by
  unfold alookup aset
  have hneg : ¬((fun (p : String × α) => p.1 == k') (k, v) = true) := by
    simp only [beq_iff_eq]
    intro hc; exact h hc.symm
  rw [@List.find?_cons_of_neg _ (fun p => p.1 == k') (k, v)
      (List.filter (fun p => !(p.1 == k)) l) hneg,
    find_filter_other_key l k k' h]

theorem alookup_adel_self {α : Type} (l : List (String × α)) (k : String) :
    alookup (adel l k) k = none := by
  unfold alookup adel
  rw [List.find?_eq_none.mpr]
  · rfl
  · intro p hp
    have := List.of_mem_filter hp
    simpa using this

theorem alookup_adel_other {α : Type} (l : List (String × α))
    (k k' : String) (h : k' ≠ k) :
    alookup (adel l k) k' = alookup l k' := by
  unfold alookup adel
  rw [find_filter_other_key l k k' h]


/-! ## Claim C1: the detection_status event with enabled false -/

/-- C1 counterexample: in a store where camera cam-1 holds a nonempty
DetectionSet and nonempty ObjectCounts, processing a detection_status
event with enabled false leaves both untouched (it only flips
isDetecting), so the claim that the event clears them is false. -/
theorem detectionStatus_false_not_clearing_counterexample :
    let msg : DetectionMsg := { camera_id := "cam-1" }
    let s : StoreState :=
      { detectionResults := [("cam-1", msg)],
        objectCounts := [("cam-1", [("person", 1)])] }
    let r := handleDetectionStatus s "cam-1" false
    alookup r.detectionResults "cam-1" = some msg ∧
    alookup r.objectCounts "cam-1" = some [("person", 1)] ∧
    alookup r.cameraStatuses "cam-1" = some { isDetecting := some false } ∧
    ¬(r.detectionResults = [] ∧ r.objectCounts = []) := by
  refine ⟨rfl, rfl, rfl, ?_⟩
  intro h
  exact absurd h.1 (by decide)

/-- C1 amended: processing a detection_status event with enabled false
sets the camera's isDetecting to false but leaves detectionResults,
objectCounts and cameraStreams exactly as they were. -/
theorem detectionStatus_false_sets_flag_only :
    ∀ (s : StoreState) (camera_id : String),
      (∃ e, alookup (handleDetectionStatus s camera_id false).cameraStatuses
          camera_id = some e ∧ e.isDetecting = some false) ∧
      (handleDetectionStatus s camera_id false).detectionResults =
        s.detectionResults ∧
      (handleDetectionStatus s camera_id false).objectCounts =
        s.objectCounts ∧
      (handleDetectionStatus s camera_id false).cameraStreams =
        s.cameraStreams := by
  intro s camera_id
  exact ⟨⟨_, alookup_aset_self _ _ _, rfl⟩, rfl, rfl, rfl⟩

/-! ## Claim C4: stopCamera acknowledgement -/

/-- C4 counterexample: a successful stop leaves the camera's stored
DetectionSet in place (only the cached frame is deleted), and a failed
stop leaves the whole store untouched, recording nothing in the error
field; both halves contradict the claim. -/
theorem stopCamera_counterexample :
    let msg : DetectionMsg := { camera_id := "cam-1" }
    let s : StoreState :=
      { cameraStatuses :=
          [("cam-1", { isStreaming := some true, isDetecting := some true })],
        detectionResults := [("cam-1", msg)],
        cameraStreams := [("cam-1", "frame-bytes")] }
    alookup (stopCamera s "cam-1" true).detectionResults "cam-1" = some msg ∧
    ¬(alookup (stopCamera s "cam-1" true).detectionResults "cam-1" = none) ∧
    stopCamera s "cam-1" false = s ∧
    alookup (stopCamera s "cam-1" false).cameraStatuses "cam-1" =
      some { isStreaming := some true, isDetecting := some true } := by
  exact ⟨rfl, by decide, rfl, rfl⟩

/-- C4 amended: a successful stop acknowledgement sets isStreaming and
isDetecting to false, clears the error field and deletes the cached
frame, but leaves detectionResults and objectCounts unchanged; a failed
stop leaves the store entirely unchanged (so isStreaming keeps its
pre-command value and no error is recorded). -/
theorem stopCamera_spec :
    ∀ (s : StoreState) (cameraId : String),
      (∃ e, alookup (stopCamera s cameraId true).cameraStatuses cameraId =
          some e ∧ e.isStreaming = some false ∧ e.isDetecting = some false ∧
          e.error = none) ∧
      alookup (stopCamera s cameraId true).cameraStreams cameraId = none ∧
      (stopCamera s cameraId true).detectionResults = s.detectionResults ∧
      (stopCamera s cameraId true).objectCounts = s.objectCounts ∧
      stopCamera s cameraId false = s := by
  intro s cameraId
  exact ⟨⟨_, alookup_aset_self _ _ _, rfl, rfl, rfl⟩,
    alookup_adel_self _ _, rfl, rfl, rfl⟩

/-! ## Claim C5: detection events replace ObjectCounts wholesale -/

/-- C5: a processed detection event carrying object_counts installs that
mapping as the camera's ObjectCounts regardless of the prior mapping, and
touches no other camera's counts: nothing of the prior mapping survives
for that camera. -/
theorem detection_replaces_objectCounts :
    ∀ (s : StoreState) (msg : DetectionMsg) (now : String) (oc : ObjectCount),
      msg.object_counts = some oc →
      alookup (handleDetection s msg now).objectCounts msg.camera_id =
        some oc ∧
      ∀ other, other ≠ msg.camera_id →
        alookup (handleDetection s msg now).objectCounts other =
          alookup s.objectCounts other := by
  intro s msg now oc h
  unfold handleDetection
  rw [h]
  exact ⟨alookup_aset_self _ _ _,
    fun other hne => alookup_aset_other _ _ _ _ hne⟩

/-- C5 witness: a concrete detection event for cam-1 carrying counts
person two overwrites a prior mapping dog three and leaves cam-2
untouched. -/
theorem detection_replaces_objectCounts_witness :
    let msg : DetectionMsg :=
      { camera_id := "cam-1", object_counts := some [("person", 2)] }
    let s : StoreState := { objectCounts := [("cam-1", [("dog", 3)])] }
    alookup (handleDetection s msg "t1").objectCounts "cam-1" =
      some [("person", 2)] ∧
    alookup (handleDetection s msg "t1").objectCounts "cam-2" =
      alookup s.objectCounts "cam-2" := by
  intro msg s
  exact ⟨(detection_replaces_objectCounts s msg "t1" _ rfl).1,
    (detection_replaces_objectCounts s msg "t1" _ rfl).2 "cam-2" (by decide)⟩

/-! ## Claim C7: toggleDetection acknowledgement failure -/

/-- C7 counterexample: a failed toggle acknowledgement leaves the store
identical, so the camera's error field stays none instead of recording
the failure as the claim states. -/
theorem toggleDetection_failure_counterexample :
    let s : StoreState :=
      { cameraStatuses :=
          [("cam-1", { isDetecting := some true, error := none })] }
    toggleDetection s "cam-1" false false = s ∧
    alookup (toggleDetection s "cam-1" false false).cameraStatuses "cam-1" =
      some { isDetecting := some true, error := none } := by
  exact ⟨rfl, rfl⟩

/-- C7 amended: a failed toggle acknowledgement leaves the whole store
unchanged, so isDetecting keeps its pre-toggle value but the failure is
not recorded in the camera's error field either (it is only surfaced as a
notification and rethrown); by contrast a successful acknowledgement does
install the requested isDetecting value. -/
theorem toggleDetection_failure_spec :
    ∀ (s : StoreState) (cameraId : String) (enabled : Bool),
      toggleDetection s cameraId enabled false = s ∧
      (∃ e, alookup (toggleDetection s cameraId enabled true).cameraStatuses
          cameraId = some e ∧ e.isDetecting = some enabled) := by
  intro s cameraId enabled
  refine ⟨rfl, ?_⟩
  unfold toggleDetection
  by_cases he : enabled
  · subst he
    simp only [if_true]
    exact ⟨_, alookup_aset_self _ _ _, rfl⟩
  · simp only [Bool.not_eq_true] at he
    subst he
    simp only [if_true, Bool.false_eq_true, if_false]
    exact ⟨_, alookup_aset_self _ _ _, rfl⟩

/-! ## Claim C8: frame events for unknown cameras -/

/-- C8: a frame event for a camera with no status entry is accepted and
creates a fresh entry whose isStreaming is true and whose lastSeen is
set; the fresh entry carries no detection flag and no error. -/
theorem frame_event_creates_entry :
    ∀ (s : StoreState) (camera_id frame : String)
      (timestamp : Option String) (now : String),
      alookup s.cameraStatuses camera_id = none →
      alookup (handleFrame s camera_id frame timestamp now).cameraStatuses
          camera_id =
        some { isStreaming := some true, isDetecting := none,
               lastSeen := some (tsOrNow timestamp now), error := none } ∧
      (some (tsOrNow timestamp now)).isSome = true := by
  intro s camera_id frame timestamp now h
  refine ⟨?_, rfl⟩
  unfold handleFrame
  rw [h]
  exact alookup_aset_self _ _ _

/-- C8 witness: the very first frame event for cam-1 in an empty store
creates its entry with isStreaming true and lastSeen set. -/
theorem frame_event_creates_entry_witness :
    alookup ((handleFrame {} "cam-1" "frame-bytes" (some "2024-01-01")
        "t0").cameraStatuses) "cam-1" =
      some { isStreaming := some true, isDetecting := none,
             lastSeen := some "2024-01-01", error := none } := by
  exact (frame_event_creates_entry {} "cam-1" "frame-bytes"
    (some "2024-01-01") "t0" rfl).1

/-! ## Claim C2: screen coordinates of a detection -/

/-- C2: for a detection carrying a bounding box, with the canvas and its
container present, the computed screen rectangle scales the box width by
displayed-width over native-width and the height likewise, and its
top-left corner is the scaled box corner offset by the canvas position
relative to its container. -/
theorem calculateScreenCoordinates_spec :
    ∀ (det : Detection) (bb : BBox) (W H : Rat) (cRect ctRect : Rect),
      det.bbox = some bb →
      ∃ sc, calculateScreenCoordinates det W H (some cRect) (some ctRect) =
          some sc ∧
        sc.screenWidth = bb.width * cRect.width / W ∧
        sc.screenHeight = bb.height * cRect.height / H ∧
        sc.screenX = bb.x1 * (cRect.width / W) + (cRect.left - ctRect.left) ∧
        sc.screenY = bb.y1 * (cRect.height / H) + (cRect.top - ctRect.top) := by
  intro det bb W H cRect ctRect hbb
  unfold calculateScreenCoordinates
  rw [hbb]
  refine ⟨_, rfl, ?_, ?_, ?_, ?_⟩ <;> dsimp <;> ring

/-- C2 witness: bounding box of width 100 and height 250 at corner
(100, 50) in a 640 by 480 image shown in a 320 by 240 canvas whose
corner sits at (10, 20) inside a container at (5, 8) yields the screen
rectangle with corner (55, 37), width 50 and height 125. -/
theorem calculateScreenCoordinates_spec_witness :
    ∃ sc, calculateScreenCoordinates
        { class_name := some "person", confidence := some (92/100),
          bbox := some ⟨100, 50, 200, 300, 100, 250⟩ }
        640 480 (some ⟨10, 20, 320, 240⟩) (some ⟨5, 8, 400, 300⟩) =
        some sc ∧
      sc.screenWidth = 50 ∧ sc.screenHeight = 125 ∧
      sc.screenX = 55 ∧ sc.screenY = 37 := by
  obtain ⟨sc, h1, h2, h3, h4, h5⟩ := calculateScreenCoordinates_spec
    { class_name := some "person", confidence := some (92/100),
      bbox := some ⟨100, 50, 200, 300, 100, 250⟩ }
    ⟨100, 50, 200, 300, 100, 250⟩ 640 480 ⟨10, 20, 320, 240⟩
    ⟨5, 8, 400, 300⟩ rfl
  refine ⟨sc, h1, ?_, ?_, ?_, ?_⟩
  · rw [h2]; norm_num
  · rw [h3]; norm_num
  · rw [h4]; norm_num
  · rw [h5]; norm_num

/-! ## Claim C10: the master volume invariant -/

theorem audioOps_mv_bounds :
    ∀ (ops : List AudioOp) (st : AudioManagerState),
      0 ≤ st.masterVolume → st.masterVolume ≤ 1 →
      0 ≤ (ops.foldl applyAudioOp st).masterVolume ∧
      (ops.foldl applyAudioOp st).masterVolume ≤ 1 := by
  intro ops
  induction ops with
  | nil => exact fun st h0 h1 => ⟨h0, h1⟩
  | cons op rest ih =>
    intro st h0 h1
    cases op with
    | setVolume v =>
      exact ih _ (le_max_left 0 _) (max_le zero_le_one (min_le_left 1 v))
    | setEnabledOp b => exact ih _ h0 h1
    | initAudio => exact ih _ h0 h1
    | play a b => exact ih _ h0 h1
    | playObjectDetection a b => exact ih _ h0 h1

/-- C10: the master volume starts at seven tenths, setMasterVolume clamps
every input into the unit interval (negatives to zero, values above one
to one), the play and enable operations never write it, and so after any
operation sequence getMasterVolume stays in the unit interval. -/
theorem masterVolume_invariant :
    getMasterVolume (runAudioOps []) = 7/10 ∧
    (∀ st v, 0 ≤ (setMasterVolume st v).masterVolume ∧
      (setMasterVolume st v).masterVolume ≤ 1) ∧
    (∀ st v, v ≤ 0 → (setMasterVolume st v).masterVolume = 0) ∧
    (∀ st v, 1 ≤ v → (setMasterVolume st v).masterVolume = 1) ∧
    (∀ ops, 0 ≤ getMasterVolume (runAudioOps ops) ∧
      getMasterVolume (runAudioOps ops) ≤ 1) := by
  refine ⟨rfl, ?_, ?_, ?_, ?_⟩
  · exact fun st v =>
      ⟨le_max_left 0 _, max_le zero_le_one (min_le_left 1 v)⟩
  · intro st v hv
    show max 0 (min 1 v) = 0
    rw [min_eq_right (hv.trans zero_le_one), max_eq_left hv]
  · intro st v hv
    show max 0 (min 1 v) = 1
    rw [min_eq_left hv, max_eq_right zero_le_one]
  · intro ops
    exact audioOps_mv_bounds ops {} (by norm_num) (by norm_num)

/-- C10 witness: a negative input clamps to zero, an input above one
clamps to one, and a concrete operation sequence keeps the volume in the
unit interval. -/
theorem masterVolume_invariant_witness :
    (setMasterVolume {} (-2)).masterVolume = 0 ∧
    (setMasterVolume {} (3/2)).masterVolume = 1 ∧
    0 ≤ getMasterVolume (runAudioOps
      [AudioOp.setVolume (5/4), AudioOp.setEnabledOp false]) := by
  exact ⟨masterVolume_invariant.2.2.1 {} (-2) (by norm_num),
    masterVolume_invariant.2.2.2.1 {} (3/2) (by norm_num),
    (masterVolume_invariant.2.2.2.2
      [AudioOp.setVolume (5/4), AudioOp.setEnabledOp false]).1⟩

/-! ## Claim C6: playObjectDetectionSound resolution and volume tiers -/

/-- C6 counterexample: a call with an empty class name (which is a string,
just falsy) is dropped without any playback at all, instead of resolving
to the default click cue at volume one as the claim requires for a
confidence of nine tenths. -/
theorem playObjectDetectionSound_empty_counterexample :
    playObjectDetectionSound (some "") (some (9/10)) = none ∧
    playObjectDetectionSound (some "") (some (9/10)) ≠
      some ("click", 1) := by
  exact ⟨rfl, by decide⟩

/-- C6 amended: for every call whose class name is a nonempty string, the
cue is resolved by lower-casing the name against the class-to-cue table
with the click cue as fallback for unrecognized names, and the volume
handed to playback is one for confidence above eight tenths, seven tenths
for confidence above one half, and one half otherwise, a missing or
non-numeric confidence being treated as one half; a call with an empty or
non-string class name is dropped without playback, and no branch raises
an error to the caller. -/
theorem playObjectDetectionSound_spec :
    ∀ (ot : String) (confidence : Option Rat), ot ≠ "" →
      ∃ volume,
        playObjectDetectionSound (some ot) confidence =
          some ((alookup soundMap (jsToLowerCase ot)).getD "click", volume) ∧
        (alookup soundMap (jsToLowerCase ot) = none →
          playObjectDetectionSound (some ot) confidence =
            some ("click", volume)) ∧
        (∀ c, confidence = some c → 8/10 < c → volume = 1) ∧
        (∀ c, confidence = some c → c ≤ 8/10 → 1/2 < c → volume = 7/10) ∧
        (∀ c, confidence = some c → c ≤ 1/2 → volume = 1/2) ∧
        (confidence = none → volume = 1/2) := by
  intro ot confidence hot
  have hbe : (ot == "") = false := by
    simp only [beq_eq_false_iff_ne, ne_eq]
    exact hot
  refine ⟨if (confidence.getD (1/2) : Rat) > 8/10 then 1
      else if (confidence.getD (1/2) : Rat) > 1/2 then 7/10 else 1/2,
    ?_, ?_, ?_, ?_, ?_, ?_⟩
  · simp only [playObjectDetectionSound, hbe, Bool.false_eq_true, if_false]
  · intro hnone
    simp only [playObjectDetectionSound, hbe, Bool.false_eq_true, if_false,
      hnone, Option.getD_none]
  · intro c hc hgt
    rw [hc]
    simp only [Option.getD_some]
    rw [if_pos hgt]
  · intro c hc hle hgt
    rw [hc]
    simp only [Option.getD_some]
    rw [if_neg (not_lt.mpr hle), if_pos hgt]
  · intro c hc hle
    rw [hc]
    simp only [Option.getD_some]
    rw [if_neg (not_lt.mpr (hle.trans (by norm_num))),
      if_neg (not_lt.mpr hle)]
  · intro hnone
    rw [hnone]
    simp only [Option.getD_none]
    rw [if_neg (by norm_num), if_neg (by norm_num)]

/-- C6 witness: the upper-case name PERSON with confidence nine tenths
resolves case-insensitively to the person cue at volume one. -/
theorem playObjectDetectionSound_spec_witness :
    playObjectDetectionSound (some "PERSON") (some (9/10)) =
      some ("person", 1) := by
  obtain ⟨v, h1, -, h3, -, -, -⟩ :=
    playObjectDetectionSound_spec "PERSON" (some (9/10)) (by decide)
  rw [h3 (9/10) rfl (by norm_num)] at h1
  rw [h1]
  rfl

/-! ## Claim C3: the per-class sound cooldown -/

theorem playDetectionSound_eval (ledger : SoundLedger) (cls : String)
    (now : Nat) (h : cls ≠ "") :
    playDetectionSound true ledger cls now =
      if SOUND_COOLDOWN < now - (alookup ledger cls).getD 0 then
        { played := true, ledger := aset ledger cls now }
      else { played := false, ledger := ledger } := by
  have hbe : (cls == "") = false := by
    rw [beq_eq_false_iff_ne]
    exact h
  unfold playDetectionSound
  rw [hbe]
  simp only [Bool.not_true, Bool.or_false, Bool.false_eq_true, if_false]

/-- C3: starting from any ledger, when a call for a class plays at time
t0, a second call for the same class at t1 within the cooldown window
plays nothing and leaves the ledger untouched, and a third call at t2
more than the window after t0 (the last call that played) plays again;
in particular the first two calls never both play. -/
theorem playDetectionSound_cooldown :
    ∀ (ledger : SoundLedger) (cls : String) (t0 t1 t2 : Nat),
      cls ≠ "" → t0 ≤ t1 → t1 - t0 ≤ SOUND_COOLDOWN →
      SOUND_COOLDOWN < t2 - t0 →
      ¬((playDetectionSound true ledger cls t0).played = true ∧
        (playDetectionSound true (playDetectionSound true ledger cls t0).ledger
          cls t1).played = true) ∧
      ((playDetectionSound true ledger cls t0).played = true →
        (playDetectionSound true (playDetectionSound true ledger cls t0).ledger
          cls t1).played = false ∧
        (playDetectionSound true (playDetectionSound true ledger cls t0).ledger
          cls t1).ledger = (playDetectionSound true ledger cls t0).ledger ∧
        (playDetectionSound true
          (playDetectionSound true
            (playDetectionSound true ledger cls t0).ledger cls t1).ledger
          cls t2).played = true) := by
  intro ledger cls t0 t1 t2 hcls h01 hwin hafter
  by_cases h0 : SOUND_COOLDOWN < t0 - (alookup ledger cls).getD 0
  · have e0 : playDetectionSound true ledger cls t0 =
        { played := true, ledger := aset ledger cls t0 } := by
      rw [playDetectionSound_eval ledger cls t0 hcls, if_pos h0]
    have e1 : playDetectionSound true (aset ledger cls t0) cls t1 =
        { played := false, ledger := aset ledger cls t0 } := by
      rw [playDetectionSound_eval _ cls t1 hcls, alookup_aset_self,
        Option.getD_some, if_neg (not_lt.mpr hwin)]
    have e2 : playDetectionSound true (aset ledger cls t0) cls t2 =
        { played := true, ledger := aset (aset ledger cls t0) cls t2 } := by
      rw [playDetectionSound_eval _ cls t2 hcls, alookup_aset_self,
        Option.getD_some, if_pos hafter]
    simp only [e0, e1, e2]
    simp
  · have e0 : playDetectionSound true ledger cls t0 =
        { played := false, ledger := ledger } := by
      rw [playDetectionSound_eval ledger cls t0 hcls, if_neg h0]
    simp only [e0]
    simp

/-- C3 witness: from an empty ledger, a call for person at 2000 ms plays,
a second call at 2500 ms is silently dropped, and a third call at 3100 ms
(more than 1000 ms after the call that played) plays again. -/
theorem playDetectionSound_cooldown_witness :
    (playDetectionSound true [] "person" 2000).played = true ∧
    (playDetectionSound true (playDetectionSound true [] "person" 2000).ledger
      "person" 2500).played = false ∧
    (playDetectionSound true
      (playDetectionSound true
        (playDetectionSound true [] "person" 2000).ledger
        "person" 2500).ledger "person" 3100).played = true := by
  have h := playDetectionSound_cooldown [] "person" 2000 2500 3100
    (by decide) (by decide) (by decide) (by decide)
  have h0 : (playDetectionSound true [] "person" 2000).played = true := by
    decide
  exact ⟨h0, (h.2 h0).1, (h.2 h0).2.2⟩

/-! ## Claim C9: detections with missing fields are skipped -/

theorem clickableItemsFrom_mem_complete :
    ∀ (dets : List Detection) (w h : Rat) (cr ct : Option Rect) (k : Nat)
      (itm : ClickableDetection),
      itm ∈ clickableItemsFrom w h cr ct k dets →
      k ≤ itm.sourceIndex ∧
      dets.get? (itm.sourceIndex - k) = some itm.detection ∧
      itm.detection.bbox.isSome = true ∧
      truthyStr itm.detection.class_name = true := by
  intro dets w h cr ct
  induction dets with
  | nil =>
    intro k itm hmem
    simp [clickableItemsFrom] at hmem
  | cons d rest ih =>
    intro k itm hmem
    simp only [clickableItemsFrom] at hmem
    have htail : itm ∈ clickableItemsFrom w h cr ct (k + 1) rest →
        k ≤ itm.sourceIndex ∧
        (d :: rest).get? (itm.sourceIndex - k) = some itm.detection ∧
        itm.detection.bbox.isSome = true ∧
        truthyStr itm.detection.class_name = true := by
      intro hmem'
      obtain ⟨hk, hget, hb, ht⟩ := ih (k + 1) itm hmem'
      refine ⟨by omega, ?_, hb, ht⟩
      have hidx : itm.sourceIndex - k = (itm.sourceIndex - (k + 1)) + 1 := by
        omega
      rw [hidx]
      simpa using hget
    split at hmem
    · exact htail hmem
    · rename_i hcond
      have hfields : d.bbox.isSome = true ∧ truthyStr d.class_name = true := by
        constructor
        · cases hbb : d.bbox
          · exact absurd (by simp [hbb] :
              (d.bbox.isNone || !(truthyStr d.class_name)) = true) hcond
          · rfl
        · cases htt : truthyStr d.class_name
          · exact absurd (by simp [htt] :
              (d.bbox.isNone || !(truthyStr d.class_name)) = true) hcond
          · rfl
      split at hmem
      · rcases List.mem_cons.mp hmem with heq | hmem'
        · subst heq
          exact ⟨le_refl k, by simp, hfields.1, hfields.2⟩
        · exact htail hmem'
      · exact htail hmem

theorem clickableItemsFrom_exists_mem :
    ∀ (dets : List Detection) (w h : Rat) (cRect ctRect : Rect)
      (k j : Nat) (d : Detection),
      dets.get? j = some d → d.bbox.isSome = true →
      truthyStr d.class_name = true →
      ∃ itm, itm ∈ clickableItemsFrom w h (some cRect) (some ctRect) k dets ∧
        itm.sourceIndex = k + j ∧ itm.detection = d := by
  intro dets w h cRect ctRect
  induction dets with
  | nil =>
    intro k j d hget
    simp at hget
  | cons hd rest ih =>
    intro k j d hget hb ht
    cases j with
    | zero =>
      have hhd : hd = d := by simpa using hget
      subst hhd
      obtain ⟨bb, hbb⟩ := Option.isSome_iff_exists.mp hb
      have hcond : (hd.bbox.isNone || !(truthyStr hd.class_name)) = false := by
        simp [hbb, ht]
      have hsc : ∃ sc, calculateScreenCoordinates hd w h (some cRect)
          (some ctRect) = some sc := by
        unfold calculateScreenCoordinates
        rw [hbb]
        exact ⟨_, rfl⟩
      obtain ⟨sc, hsc⟩ := hsc
      refine ⟨{ detection := hd, sourceIndex := k, coords := sc }, ?_,
        by simp, rfl⟩
      simp only [clickableItemsFrom, hcond, Bool.false_eq_true, if_false, hsc]
      exact List.mem_cons_self _ _
    | succ j' =>
      have hget' : rest.get? j' = some d := by simpa using hget
      obtain ⟨itm, hmem, hidx, hdet⟩ := ih (k + 1) j' d hget' hb ht
      refine ⟨itm, ?_, by omega, hdet⟩
      simp only [clickableItemsFrom]
      split
      · exact hmem
      · split
        · exact List.mem_cons_of_mem _ hmem
        · exact hmem

theorem drawBoundingBoxes_sound :
    ∀ (dets : List Detection) (b : DrawnBox),
      b ∈ drawBoundingBoxes dets →
      ∃ d, d ∈ dets ∧ d.class_name = some b.class_name ∧
        d.bbox = some b.bbox := by
  intro dets
  induction dets with
  | nil =>
    intro b hb
    simp [drawBoundingBoxes] at hb
  | cons d rest ih =>
    intro b hb
    have htail : b ∈ drawBoundingBoxes rest →
        ∃ d', d' ∈ d :: rest ∧ d'.class_name = some b.class_name ∧
          d'.bbox = some b.bbox := by
      intro hb'
      obtain ⟨d', hd', h1, h2⟩ := ih b hb'
      exact ⟨d', List.mem_cons_of_mem _ hd', h1, h2⟩
    cases hcn : d.class_name with
    | none =>
      rw [drawBoundingBoxes, hcn] at hb
      exact htail hb
    | some cn =>
      cases hbb : d.bbox with
      | none =>
        rw [drawBoundingBoxes, hcn, hbb] at hb
        exact htail hb
      | some bb =>
        rw [drawBoundingBoxes, hcn, hbb] at hb
        dsimp only at hb
        by_cases hc : (cn == "") = true
        · rw [if_pos hc] at hb
          exact htail hb
        · rw [if_neg hc] at hb
          rcases List.mem_cons.mp hb with heq | hb'
          · subst heq
            exact ⟨d, List.mem_cons_self _ _, hcn, hbb⟩
          · exact htail hb'

theorem drawBoundingBoxes_length :
    ∀ dets : List Detection,
      (drawBoundingBoxes dets).length =
        (dets.filter
          (fun d => truthyStr d.class_name && d.bbox.isSome)).length := by
  intro dets
  induction dets with
  | nil => rfl
  | cons d rest ih =>
    cases hcn : d.class_name with
    | none =>
      rw [drawBoundingBoxes, hcn, List.filter_cons]
      simp only [hcn, truthyStr, Bool.false_and, Bool.false_eq_true, if_false]
      exact ih
    | some cn =>
      cases hbb : d.bbox with
      | none =>
        rw [drawBoundingBoxes, hcn, hbb, List.filter_cons]
        simp only [hcn, hbb, truthyStr, Option.isSome_none, Bool.and_false,
          Bool.false_eq_true, if_false]
        exact ih
      | some bb =>
        rw [drawBoundingBoxes, hcn, hbb, List.filter_cons]
        dsimp only
        by_cases hc : (cn == "") = true
        · rw [if_pos hc]
          simp only [hcn, hbb, truthyStr, hc, Bool.not_true, Bool.false_and,
            Bool.false_eq_true, if_false]
          exact ih
        · rw [if_neg hc]
          have hc' : (cn == "") = false := by
            revert hc
            cases cn == "" <;> simp
          have hcond : (truthyStr d.class_name && d.bbox.isSome) = true := by
            rw [hcn, hbb]
            simp [truthyStr, hc']
          rw [if_pos hcond, List.length_cons, List.length_cons, ih]

/-- C9: every ClickableRegion comes from the detection stored at its
source index, which has both a bounding box and a truthy class name (so a
detection missing either never produces a region); every detection with
both fields present produces a region at its index; every drawn box comes
from a detection with both fields present; and exactly the detections
with both fields present are drawn. -/
theorem detections_missing_fields_skipped :
    ∀ (dets : List Detection) (w h : Rat) (cRect ctRect : Rect),
      (∀ itm ∈ computeClickableItems dets w h (some cRect) (some ctRect),
        dets.get? itm.sourceIndex = some itm.detection ∧
        itm.detection.bbox.isSome = true ∧
        truthyStr itm.detection.class_name = true) ∧
      (∀ j d, dets.get? j = some d → d.bbox.isSome = true →
        truthyStr d.class_name = true →
        ∃ itm ∈ computeClickableItems dets w h (some cRect) (some ctRect),
          itm.sourceIndex = j ∧ itm.detection = d) ∧
      (∀ b ∈ drawBoundingBoxes dets, ∃ d ∈ dets,
        d.class_name = some b.class_name ∧ d.bbox = some b.bbox) ∧
      (drawBoundingBoxes dets).length =
        (dets.filter
          (fun d => truthyStr d.class_name && d.bbox.isSome)).length := by
  intro dets w h cRect ctRect
  refine ⟨?_, ?_, drawBoundingBoxes_sound dets, drawBoundingBoxes_length dets⟩
  · intro itm hmem
    obtain ⟨-, hget, hb, ht⟩ := clickableItemsFrom_mem_complete dets w h
      (some cRect) (some ctRect) 0 itm hmem
    rw [Nat.sub_zero] at hget
    exact ⟨hget, hb, ht⟩
  · intro j d hget hb ht
    obtain ⟨itm, hmem, hidx, hdet⟩ := clickableItemsFrom_exists_mem dets w h
      cRect ctRect 0 j d hget hb ht
    exact ⟨itm, hmem, by omega, hdet⟩

/-- C9 witness: in a set holding one complete detection followed by one
with no bounding box, the complete one yields the region at index zero,
the incomplete one yields no region and no drawn box, and exactly one box
is drawn. -/
theorem detections_missing_fields_skipped_witness :
    (∃ itm ∈ computeClickableItems
        [{ class_name := some "person", confidence := some (9/10),
           bbox := some ⟨100, 50, 200, 300, 100, 250⟩ },
         { class_name := some "car" }]
        640 480 (some ⟨0, 0, 320, 240⟩) (some ⟨0, 0, 320, 240⟩),
      itm.sourceIndex = 0 ∧
      itm.detection = { class_name := some "person",
                        confidence := some (9/10),
                        bbox := some ⟨100, 50, 200, 300, 100, 250⟩ }) ∧
    (∀ itm ∈ computeClickableItems
        [{ class_name := some "person", confidence := some (9/10),
           bbox := some ⟨100, 50, 200, 300, 100, 250⟩ },
         { class_name := some "car" }]
        640 480 (some ⟨0, 0, 320, 240⟩) (some ⟨0, 0, 320, 240⟩),
      itm.sourceIndex ≠ 1) ∧
    (drawBoundingBoxes
        [{ class_name := some "person", confidence := some (9/10),
           bbox := some ⟨100, 50, 200, 300, 100, 250⟩ },
         { class_name := some "car" }]).length = 1 := by
  have h := detections_missing_fields_skipped
    [{ class_name := some "person", confidence := some (9/10),
       bbox := some ⟨100, 50, 200, 300, 100, 250⟩ },
     { class_name := some "car" }]
    640 480 ⟨0, 0, 320, 240⟩ ⟨0, 0, 320, 240⟩
  refine ⟨h.2.1 0 _ rfl rfl (by decide), ?_, ?_⟩
  · intro itm hmem hidx
    obtain ⟨hget, hb, -⟩ := h.1 itm hmem
    rw [hidx] at hget
    have hdet : itm.detection = { class_name := some "car" } := by
      exact (by simpa using hget :
        ({ class_name := some "car" } : Detection) = itm.detection).symm
    rw [hdet] at hb
    simp at hb
  · rw [h.2.2.2]
    decide

end YolovFeed
